import Mathlib

/-
Verification development for the Longwave-Radiation-Model-Hawaii repository.

Two source modules are embedded:
  models.py        : the multi-station (SURFRAD) pipeline — Brutsaert clear-sky
                     baseline, six cloudy-sky correction formulas, a string
                     dispatcher, emissivity inversion, per-station HDF5 loading
                     with skip-on-KeyError, and the per-model validation loop.
  HIdata_error.py  : the single-station Hawaii pipeline — module-level column
                     capture, five row-filter conditions, cloud-fraction and
                     emissivity formulas, and the four error metrics.

Real-valued formulas (fractional powers, exp, sqrt) are embedded over ℝ;
tabular data, the row filters and the loading pipeline are embedded over ℚ so
that concrete scenarios evaluate by decide. Python float literals are embedded
as the corresponding exact decimal literals.
-/

namespace Longwave

/-! ## models.py — physical formula library -/

/-- Stefan-Boltzmann constant, the shared default of the sigma parameters in
models.py (5.67e-8 W/m^2/K^4). -/
noncomputable def sigma_sb : ℝ := 5.67e-8

/-- models.py line 5: Brutsaert (1975) clear-sky model for downwelling LW.
epsilon_0 = 1.24 * (ea / Ta) ** (1/7), returns epsilon_0 * sigma * Ta ** 4,
with sigma left at its default. -/
noncomputable def brutsaert_clear_sky (Ta ea : ℝ) : ℝ :=
  (1.24 * (ea / Ta) ^ ((1 : ℝ) / 7)) * sigma_sb * Ta ^ (4 : ℕ)

/-- models.py line 27: Maykut and Church (1973) cloudy-sky correction. -/
noncomputable def maykut_church (LW_clear c : ℝ) : ℝ :=
  LW_clear * (1 + 0.22 * c ^ (2.75 : ℝ))

/-- models.py line 31: Jacobs (1978) cloudy-sky correction. -/
noncomputable def jacobs (LW_clear c : ℝ) : ℝ :=
  LW_clear * (1 + 0.26 * c)

/-- models.py line 35: Suguita and Brutsaert (1993) cloudy-sky correction. -/
noncomputable def suguita_brutsaert (LW_clear c : ℝ) : ℝ :=
  LW_clear * (1 + 0.0496 * c ^ (2.45 : ℝ))

/-- models.py line 39: Konzelmann et al. (1994) cloudy-sky correction, with
sigma left at its default. -/
noncomputable def konzelmann (LW_clear c Ta : ℝ) : ℝ :=
  LW_clear * (1 - c ^ (4 : ℕ)) + 0.952 * c ^ (4 : ℕ) * sigma_sb * Ta ^ (4 : ℕ)

/-- models.py line 43: Crawford and Duchon (1999) cloudy-sky correction, with
sigma left at its default. -/
noncomputable def crawford_duchon (LW_clear c Ta : ℝ) : ℝ :=
  LW_clear * (1 - c) + c * sigma_sb * Ta ^ (4 : ℕ)

/-- models.py line 47: Lhomme et al. (2007) cloudy-sky correction. -/
noncomputable def lhomme (LW_clear c : ℝ) : ℝ :=
  LW_clear * (1.03 + 0.34 * c)

/-- models.py line 51: compute_cloudy_LW dispatch on the model name. The
Python function raises ValueError on an unrecognised name; that raise is
embedded as none. -/
noncomputable def compute_cloudy_LW (Ta ea c : ℝ) (model : String) : Option ℝ :=
  let LW_clear := brutsaert_clear_sky Ta ea
  if model = "maykut_church" then some (maykut_church LW_clear c)
  else if model = "jacobs" then some (jacobs LW_clear c)
  else if model = "suguita_brutsaert" then some (suguita_brutsaert LW_clear c)
  else if model = "konzelmann" then some (konzelmann LW_clear c Ta)
  else if model = "crawford_duchon" then some (crawford_duchon LW_clear c Ta)
  else if model = "lhomme" then some (lhomme LW_clear c)
  else none

/-- models.py line 51: the declared default of the model parameter of
compute_cloudy_LW is the string crawford_duchon; a call that omits the model
argument is a call with this string. -/
def compute_cloudy_LW_default_model : String := "crawford_duchon"

/-- compute_cloudy_LW as invoked without an explicit model argument
(models.py line 51 gives the model parameter the default crawford_duchon). -/
noncomputable def compute_cloudy_LW_defaulted (Ta ea c : ℝ) : Option ℝ :=
  compute_cloudy_LW Ta ea c compute_cloudy_LW_default_model

/-- The six model names enumerated by the dispatch branches of
compute_cloudy_LW (models.py lines 61 to 72). -/
def enumerated_models : List String :=
  ["maykut_church", "jacobs", "suguita_brutsaert", "konzelmann",
   "crawford_duchon", "lhomme"]

/-! ## models.py — multi-station pipeline over exact rationals

The tabular part of models.py only ever applies rational operations
(subtraction, division, clip, fourth powers), so columns are embedded as
List ℚ and station tables as records of columns. A column that may be absent
from the stored table is an Option; accessing an absent column raises
KeyError in pandas, embedded as an Except.error carrying the missing name. -/

/-- Stefan-Boltzmann constant as an exact rational, for the ℚ-valued
pipeline columns (same 5.67e-8 literal as in models.py). -/
def sigma_q : ℚ := 5.67e-8

/-- models.py line 14: calculate_cloud_fraction on whole columns. When the
clr_pct column is provided the result is 1 - clr_pct elementwise, with no
clipping; otherwise 1 - ghi_m / ghi_c elementwise, clipped to [0, 1]
(np.clip a 0 1 = min 1 (max 0 a)). -/
def calculate_cloud_fraction (ghi_m ghi_c : List ℚ) (clr_pct : Option (List ℚ)) :
    List ℚ :=
  match clr_pct with
  | some ps => ps.map (fun p => 1 - p)
  | none =>
      (List.zipWith (fun m c => 1 - m / c) ghi_m ghi_c).map
        (fun x => min 1 (max 0 x))

/-- models.py line 76: compute_emissivity, the Stefan-Boltzmann inversion
LW_measured / (sigma * Ta ** 4), elementwise on a scalar pair. -/
def compute_emissivity (LW_measured Ta : ℚ) : ℚ :=
  LW_measured / (sigma_q * Ta ^ (4 : ℕ))

/-- A station table as stored in the HDF5 file: each column that
read_surfrad_h5 accesses is present or absent. clr_pct is read through
df.get, which never raises; the others raise KeyError when absent. -/
structure RawStation where
  ghi_m : Option (List ℚ)
  ghi_c : Option (List ℚ)
  clr_pct : Option (List ℚ)
  dlw_m : Option (List ℚ)
  t_m : Option (List ℚ)
  pw_hpa : Option (List ℚ)
deriving DecidableEq

/-- The HDF5 source: a keyed collection of station tables. -/
abbrev H5File : Type := List (String × RawStation)

/-- pd.read_hdf file key=station: the stored table under the key, or none
when the key is absent (in which case pandas raises KeyError). -/
def readKey (f : H5File) (k : String) : Option RawStation :=
  (List.find? (fun p => p.1 = k) f).map Prod.snd

/-- Column access df[name]: returns the column, or raises KeyError naming
the column when it is absent. -/
def getCol (c : Option (List ℚ)) (name : String) : Except String (List ℚ) :=
  match c with
  | some v => Except.ok v
  | none => Except.error name

/-- The per-station frame produced inside the loop of read_surfrad_h5
(models.py lines 96 to 101): the loaded columns plus the derived
Cloud_Fraction, Emissivity_measured, Ta, ea and Station columns. -/
structure ProcStation where
  ghi_m : List ℚ
  ghi_c : List ℚ
  cloud_fraction : List ℚ
  emissivity_measured : List ℚ
  ta : List ℚ
  ea : List ℚ
  station : String
deriving DecidableEq

/-- The body of the per-station try block of read_surfrad_h5 (models.py
lines 96 to 102), with every KeyError site explicit: the key lookup at line
96, then the column accesses in source order (ghi_m, ghi_c at line 97;
dlw_m, t_m at line 98; t_m again at line 99; pw_hpa at line 100). The error
value is the missing key or column name carried by the KeyError. -/
def processStation (f : H5File) (station : String) : Except String ProcStation := do
  let df ← match readKey f station with
    | some d => Except.ok d
    | none => Except.error station
  let ghim ← getCol df.ghi_m "ghi_m"
  let ghic ← getCol df.ghi_c "ghi_c"
  let cf := calculate_cloud_fraction ghim ghic df.clr_pct
  let dlwm ← getCol df.dlw_m "dlw_m"
  let tm ← getCol df.t_m "t_m"
  let em := List.zipWith compute_emissivity dlwm tm
  let ea ← getCol df.pw_hpa "pw_hpa"
  Except.ok ⟨ghim, ghic, cf, em, tm, ea, station⟩

/-- models.py line 86: read_surfrad_h5. Each station is processed inside a
try/except KeyError that prints a warning and skips the station, so the
combined list keeps exactly the stations whose body succeeded; the final
pd.concat raises ValueError (No objects to concatenate) when no station
loaded, embedded as the error branch. The combined dataframe is the
concatenation of the per-station frames in station order. -/
def read_surfrad_h5 (f : H5File) (stations : List String) :
    Except String (List ProcStation) :=
  let combined := stations.filterMap (fun st => (processStation f st).toOption)
  match combined with
  | [] => Except.error "No objects to concatenate"
  | ps => Except.ok ps

/-! ## models.py — validate_emissivity over ℝ

The validation loop feeds whole columns through compute_cloudy_LW; the
dispatch happens once per model and the arithmetic elementwise. Columns here
are List ℝ since the formulas involve fractional powers. -/

/-- Elementwise combination of three equal-length columns. -/
def zipWith3 (f : α → β → γ → δ) : List α → List β → List γ → List δ
  | a :: as, b :: bs, c :: cs => f a b c :: zipWith3 f as bs cs
  | _, _, _ => []

/-- Collects a list of optional values; none when any entry is none. A
vectorised call of compute_cloudy_LW either applies one formula to every
element (valid name) or raises for the whole column (invalid name). -/
def allSome : List (Option α) → Option (List α)
  | [] => some []
  | none :: _ => none
  | some a :: t =>
      match allSome t with
      | some l => some (a :: l)
      | none => none

/-- np.mean of a column: sum divided by length. -/
noncomputable def listMean (l : List ℝ) : ℝ := l.sum / l.length

/-- The columns of the combined SURFRAD frame that validate_emissivity
reads (models.py lines 113 to 121). -/
structure ValidationData where
  Ta : List ℝ
  ea : List ℝ
  cloud_Fraction : List ℝ
  emissivity_measured : List ℝ

/-- One iteration of the loop of validate_emissivity (models.py lines 113
to 127): predicted_LW from the dispatcher, predicted emissivity by the
Stefan-Boltzmann inversion with the literal 5.67e-8, errors, then MBE, RMSE,
rMBE and rRMSE relative to the mean measured emissivity. A none from the
dispatcher (unknown model) propagates as none. -/
noncomputable def validate_one (data : ValidationData) (model : String) :
    Option (ℝ × ℝ × ℝ × ℝ) :=
  match allSome (zipWith3 (fun t e c => compute_cloudy_LW t e c model)
      data.Ta data.ea data.cloud_Fraction) with
  | none => none
  | some predicted_LW =>
      let predicted_emissivity :=
        List.zipWith (fun l t => l / (5.67e-8 * t ^ (4 : ℕ))) predicted_LW data.Ta
      let measured_emissivity := data.emissivity_measured
      let error := List.zipWith (fun p m => p - m)
        predicted_emissivity measured_emissivity
      let mbe := listMean error
      let rmse := Real.sqrt (listMean (error.map (fun e => e ^ (2 : ℕ))))
      let rMBE := mbe / listMean measured_emissivity * 100
      let rRMSE := rmse / listMean measured_emissivity * 100
      some (mbe, rmse, rMBE, rRMSE)

/-- models.py line 107: validate_emissivity collects the four metrics per
requested model, in request order. -/
noncomputable def validate_emissivity (data : ValidationData)
    (models : List String) : List (String × Option (ℝ × ℝ × ℝ × ℝ)) :=
  models.map (fun m => (m, validate_one data m))

/-! ## HIdata_error.py — formula library

Constants from lines 5 to 11 and the four pure functions from lines 14 to
46, over ℝ (the CF formula uses fractional powers). -/

/-- HIdata_error.py line 5. -/
noncomputable def a1 : ℝ := 0.42036059446739293
/-- HIdata_error.py line 6. -/
noncomputable def a2 : ℝ := 0.8335622813711547
/-- HIdata_error.py line 7. -/
noncomputable def m1 : ℝ := 0.24940266639537556
/-- HIdata_error.py line 8. -/
noncomputable def m2 : ℝ := -0.13137915252218796
/-- HIdata_error.py line 11: scale height in meters. -/
noncomputable def scaleH : ℝ := 8500
/-- HIdata_error.py line 9. -/
noncomputable def n1 : ℝ := -0.31787964985255074

/-- HIdata_error.py line 14: calculate_cf. k_d = dhi_m / ghi_m,
k_t = dni_m / dni_c, cf = a1 * k_d ** a2 + m1 * k_t ** m2 + n1. -/
noncomputable def calculate_cf (dhi_m ghi_m dni_m dni_c : ℝ) : ℝ :=
  let k_d := dhi_m / ghi_m
  let k_t := dni_m / dni_c
  a1 * k_d ^ a2 + m1 * k_t ^ m2 + n1

/-- HIdata_error.py line 21: predict_epsilon_sky, the linear interpolation
between clear-sky and cloud emissivity weighted by the cloud fraction. -/
noncomputable def predict_epsilon_sky (cf epsilon_clear_sky epsilon_clouds : ℝ) : ℝ :=
  (1 - cf) * epsilon_clear_sky + cf * epsilon_clouds

/-- HIdata_error.py line 26: calculate_actual_epsilon, Stefan-Boltzmann
inversion after converting Celsius to Kelvin. -/
noncomputable def calculate_actual_epsilon (temp dlw : ℝ) : ℝ :=
  let t_kelvin := temp + 273.15
  dlw / (sigma_sb * t_kelvin ^ (4 : ℕ))

/-- HIdata_error.py line 32: calculate_clear_sky_emissivity. Magnus-type
saturation vapor pressure, water vapor pressure via relative humidity,
normalisation by 1013.25 hPa, and the altitude decay term with the scale
height constant. -/
noncomputable def calculate_clear_sky_emissivity (temp rh altitude : ℝ) : ℝ :=
  let e_s := 6.112 * Real.exp (17.625 * temp / (temp - 30.11 + 273.15))
  let pw_hpa := e_s * rh / 100
  let sqrt_pw := Real.sqrt (pw_hpa / 1013.25)
  0.6 + 1.652 * sqrt_pw + 0.15 * (Real.exp (-altitude / scaleH) - 1)

/-- HIdata_error.py line 40: calculate_errors. errors = predicted - actual,
mbe and rmse are means over the errors, and the relative forms divide by the
mean of the actual series and scale to percent. -/
noncomputable def calculate_errors (actual predicted : List ℝ) : ℝ × ℝ × ℝ × ℝ :=
  let errors := List.zipWith (fun p a => p - a) predicted actual
  let mbe := listMean errors
  let rmse := Real.sqrt (listMean (errors.map (fun e => e ^ (2 : ℕ))))
  let rMBE := mbe / listMean actual * 100
  let rRMSE := rmse / listMean actual * 100
  (mbe, rmse, rMBE, rRMSE)

/-! ## HIdata_error.py — single-station pipeline

One row of the Hawaii table holds the nine columns the script reads. The
filter conditions compare only rational quantities, so rows are exact
rationals and the filter is decidable; row values are cast into ℝ where they
feed the real-valued formulas. -/

/-- One row of the Hawaii dataset with the columns used by the script:
Solar Zenith Angle, DHI, GHI, DNI, Clearsky DNI, temp, dlw, rh, site_elev. -/
structure HIRow where
  solarZenithAngle : ℚ
  DHI : ℚ
  GHI : ℚ
  DNI : ℚ
  clearskyDNI : ℚ
  temp : ℚ
  dlw : ℚ
  rh : ℚ
  site_elev : ℚ
deriving DecidableEq

/-- HIdata_error.py line 52: dhi_m = data[DHI], captured from the unfiltered
frame (the filter only runs at line 68). -/
def dhi_m_col (d : List HIRow) : List ℚ := d.map (fun r => r.DHI)

/-- HIdata_error.py line 53: ghi_m = data[GHI], captured before the filter. -/
def ghi_m_col (d : List HIRow) : List ℚ := d.map (fun r => r.GHI)

/-- HIdata_error.py line 54: dni_m = data[DNI], captured before the filter. -/
def dni_m_col (d : List HIRow) : List ℚ := d.map (fun r => r.DNI)

/-- HIdata_error.py line 55: dni_c = data[Clearsky DNI], captured before the
filter. -/
def dni_c_col (d : List HIRow) : List ℚ := d.map (fun r => r.clearskyDNI)

/-- HIdata_error.py line 63: Solar Zenith Angle below 72.5. -/
def condition_0 (r : HIRow) : Bool := decide (r.solarZenithAngle < 72.5)

/-- HIdata_error.py line 64: GHI and DHI strictly positive. -/
def condition_1 (r : HIRow) : Bool := decide (r.GHI > 0) && decide (r.DHI > 0)

/-- HIdata_error.py line 65: DNI over Clearsky DNI in (0, 1.5]. -/
def condition_2 (r : HIRow) : Bool :=
  decide (r.DNI / r.clearskyDNI > 0) && decide (r.DNI / r.clearskyDNI ≤ 1.5)

/-- HIdata_error.py line 66: temperature between -80 and 90 Celsius. -/
def condition_3 (r : HIRow) : Bool := decide (r.temp ≤ 90) && decide (r.temp ≥ -80)

/-- HIdata_error.py line 67: measured DLW strictly positive. -/
def condition_4 (r : HIRow) : Bool := decide (r.dlw > 0)

/-- The conjunction of the five filter conditions of line 68. -/
def passesAll (r : HIRow) : Bool :=
  condition_0 r && condition_1 r && condition_2 r && condition_3 r && condition_4 r

/-- HIdata_error.py line 68: the frame after the row filter, keeping exactly
the rows on which all five conditions hold. -/
def filtered_data (d : List HIRow) : List HIRow := d.filter passesAll

/-- Elementwise combination of four equal-length columns, the shape of a
vectorised four-argument pandas expression. -/
def zipWith4 (f : α → β → γ → δ → ε) :
    List α → List β → List γ → List δ → List ε
  | a :: as, b :: bs, c :: cs, d :: ds => f a b c d :: zipWith4 f as bs cs ds
  | _, _, _, _ => []

/-- HIdata_error.py line 77: the series calculate_cf(dhi_m, ghi_m, dni_m,
dni_c). Its four arguments are the columns captured at lines 52 to 55 from
the unfiltered frame, so the elementwise formula evaluation (including the
divisions by ghi_m and dni_c) runs over every row of the original table, not
only over the rows that survived the line-68 filter. -/
noncomputable def cf_column (d : List HIRow) : List ℝ :=
  zipWith4 (fun (a b c e : ℚ) => calculate_cf (a : ℝ) (b : ℝ) (c : ℝ) (e : ℝ))
    (dhi_m_col d) (ghi_m_col d) (dni_m_col d) (dni_c_col d)

/-- The assignment data[CF] = calculate_cf(...) at line 77: pandas aligns
the full-index series with the index of the filtered frame, so entry i of
the series is paired with row i of the original table and only the pairs
whose row passed the filter are kept in the frame. -/
noncomputable def cf_assigned (d : List HIRow) : List (HIRow × ℝ) :=
  (d.zip (cf_column d)).filter (fun p => passesAll p.1)

/-! ## Concrete tables for the scenario claims -/

/-- A row passing every filter condition: zenith 30, DHI 100, GHI 500,
DNI 500, Clearsky DNI 600 (so the clearness quotient is 5/6), temp 20,
dlw 300, rh 50, site_elev 100. -/
def rowGood : HIRow :=
  { solarZenithAngle := 30, DHI := 100, GHI := 500, DNI := 500,
    clearskyDNI := 600, temp := 20, dlw := 300, rh := 50, site_elev := 100 }

/-- A row with GHI = 0, failing condition_1 and removed by the filter, while
every other column passes. -/
def rowZeroGHI : HIRow :=
  { solarZenithAngle := 30, DHI := 50, GHI := 0, DNI := 500,
    clearskyDNI := 600, temp := 20, dlw := 300, rh := 50, site_elev := 100 }

/-- Row with temp = 95, failing condition_3, all other columns passing. -/
def rowHotTemp : HIRow :=
  { solarZenithAngle := 30, DHI := 100, GHI := 500, DNI := 500,
    clearskyDNI := 600, temp := 95, dlw := 300, rh := 50, site_elev := 100 }

/-- The five-row scenario table of the spec: GHI = [500, 0, 500, 500, 500],
DHI = [100, 50, 100, 100, 100], temp = [20, 20, 20, 95, 20], all other
filter columns passing. -/
def scenarioTable : List HIRow :=
  [rowGood, rowZeroGHI, rowGood, rowHotTemp, rowGood]

/-- Two-row table whose second row is removed by the filter with a zero GHI. -/
def tableWithZeroGHI : List HIRow := [rowGood, rowZeroGHI]

/-- A station table with every expected column present (one data row). -/
def stationFull : RawStation :=
  { ghi_m := some [400], ghi_c := some [800], clr_pct := none,
    dlw_m := some [350], t_m := some [300], pw_hpa := some [10] }

/-- A station table that loaded but lacks the ghi_m column: accessing it
raises KeyError, the schema-error case. -/
def stationNoGhiM : RawStation :=
  { ghi_m := none, ghi_c := some [800], clr_pct := none,
    dlw_m := some [350], t_m := some [300], pw_hpa := some [10] }

/-- An HDF5 source holding a complete station A and a station B whose table
exists but is missing the ghi_m column. -/
def exFile : H5File := [("A", stationFull), ("B", stationNoGhiM)]

/-- The per-station frame that processStation produces for station A of
exFile: cloud fraction clip(1 - 400/800) = 1/2 and measured emissivity
350 / (sigma * 300^4). -/
def procA : ProcStation :=
  { ghi_m := [400], ghi_c := [800], cloud_fraction := [1/2],
    emissivity_measured := [350 / (sigma_q * 300 ^ (4 : ℕ))],
    ta := [300], ea := [10], station := "A" }

/-- The actual series of the relative-error scenario in the spec. -/
noncomputable def actualEx : List ℝ := [1, 1, 1]

/-- The predicted series of the relative-error scenario in the spec. -/
noncomputable def predictedEx : List ℝ := [1.1, 0.9, 1.0]

/-- A one-row validation frame: Ta 300 K, ea 10 hPa, cloud fraction 0,
measured emissivity 1. -/
noncomputable def dataEx : ValidationData :=
  { Ta := [300], ea := [10], cloud_Fraction := [0], emissivity_measured := [1] }

/-! ## Helper lemmas -/

/-- zipWith4 over four maps of one list fuses into a single map. -/
theorem zipWith4_map {α β₁ β₂ β₃ β₄ ε : Type}
    (f : β₁ → β₂ → β₃ → β₄ → ε) (g1 : α → β₁) (g2 : α → β₂) (g3 : α → β₃)
    (g4 : α → β₄) (l : List α) :
    zipWith4 f (l.map g1) (l.map g2) (l.map g3) (l.map g4) =
      l.map (fun x => f (g1 x) (g2 x) (g3 x) (g4 x)) := by
  induction l with
  | nil => rfl
  | cons x xs ih => simp [zipWith4, ih]

/-- The CF series of line 77 carries one entry per row of the original,
unfiltered table, each applying calculate_cf to the columns of that row. -/
theorem cf_column_eq (d : List HIRow) :
    cf_column d = d.map (fun r =>
      calculate_cf (r.DHI : ℝ) (r.GHI : ℝ) (r.DNI : ℝ) (r.clearskyDNI : ℝ)) := by
  unfold cf_column dhi_m_col ghi_m_col dni_m_col dni_c_col
  exact zipWith4_map _ _ _ _ _ d

/-- Zipping a list with a map of itself pairs each element with its image. -/
theorem zip_self_map {α β : Type} (h : α → β) (l : List α) :
    l.zip (l.map h) = l.map (fun x => (x, h x)) := by
  induction l with
  | nil => rfl
  | cons x xs ih => simp [ih]

/-- Filtering pairs on a predicate of the first component commutes with
pairing each element with its image. -/
theorem filter_pair_map {α β : Type} (p : α → Bool) (h : α → β) (l : List α) :
    (l.map (fun x => (x, h x))).filter (fun q => p q.1) =
      (l.filter p).map (fun x => (x, h x)) := by
  induction l with
  | nil => rfl
  | cons x xs ih =>
    by_cases hp : p x
    · simp [List.filter_cons, hp, ih]
    · simp [List.filter_cons, hp, ih]

/-- Index alignment of the line-77 assignment: the CF values kept in the
filtered frame are exactly the filtered rows paired with calculate_cf of
their own columns. -/
theorem cf_assigned_eq (d : List HIRow) :
    cf_assigned d = (filtered_data d).map (fun r =>
      (r, calculate_cf (r.DHI : ℝ) (r.GHI : ℝ) (r.DNI : ℝ) (r.clearskyDNI : ℝ))) := by
  unfold cf_assigned filtered_data
  rw [cf_column_eq, zip_self_map, filter_pair_map]

/-- Bind on a successful Except step. -/
theorem except_bind_ok {ε α β : Type} (a : α) (f : α → Except ε β) :
    (Except.ok a : Except ε α) >>= f = f a := rfl

/-- Bind on a failed Except step propagates the error. -/
theorem except_bind_error {ε α β : Type} (e : ε) (f : α → Except ε β) :
    (Except.error e : Except ε α) >>= f = Except.error e := rfl

/-- The Bool filter conjunction unfolded to its proposition. -/
theorem passesAll_iff (r : HIRow) : passesAll r = true ↔
    (r.solarZenithAngle < 72.5 ∧ (r.GHI > 0 ∧ r.DHI > 0) ∧
     (r.DNI / r.clearskyDNI > 0 ∧ r.DNI / r.clearskyDNI ≤ 1.5) ∧
     (r.temp ≤ 90 ∧ r.temp ≥ -80) ∧ r.dlw > 0) := by
  simp only [passesAll, condition_0, condition_1, condition_2, condition_3,
    condition_4, Bool.and_eq_true, decide_eq_true_eq]
  tauto

/-- The fully passing example row satisfies the filter. -/
theorem passesAll_rowGood : passesAll rowGood = true := by
  rw [passesAll_iff]
  norm_num [rowGood]

/-- The zero-GHI example row fails the filter (condition_1). -/
theorem passesAll_rowZeroGHI : passesAll rowZeroGHI = false := by
  rw [Bool.eq_false_iff, Ne, passesAll_iff]
  norm_num [rowZeroGHI]

/-- The hot-temperature example row fails the filter (condition_3). -/
theorem passesAll_rowHotTemp : passesAll rowHotTemp = false := by
  rw [Bool.eq_false_iff, Ne, passesAll_iff]
  norm_num [rowHotTemp]

/-- The two-row table filters to the single good row. -/
theorem filtered_tableWithZeroGHI : filtered_data tableWithZeroGHI = [rowGood] := by
  simp [filtered_data, tableWithZeroGHI, List.filter_cons, passesAll_rowGood,
    passesAll_rowZeroGHI]

/-- A row passing the filter has positive GHI and a clearness quotient in
(0, 1.5], hence nonzero GHI and nonzero clear-sky DNI. -/
theorem passes_nonzero_denominators (r : HIRow) (h : passesAll r = true) :
    r.GHI ≠ 0 ∧ r.clearskyDNI ≠ 0 := by
  unfold passesAll condition_0 condition_1 condition_2 condition_3 condition_4 at h
  simp only [Bool.and_eq_true, decide_eq_true_eq] at h
  obtain ⟨⟨⟨⟨hz, hGHI, hDHI⟩, hq1, hq2⟩, ht⟩, hd⟩ := h
  refine ⟨ne_of_gt hGHI, ?_⟩
  intro h0
  rw [h0, div_zero] at hq1
  exact lt_irrefl 0 hq1

/-! ## Claim C1 -/

/-- C1, counterexample. The claim states that the cloud-fraction formula of
the single-station pipeline is evaluated only on rows that passed every
filter predicate, so that no division by a zero GHI from a removed row ever
occurs. On tableWithZeroGHI this fails: the ghi_m column that line 77 feeds
to calculate_cf is captured at line 53 before the line-68 filter, so it
differs from the filtered GHI column, contains the literal 0 of the removed
row rowZeroGHI, and the CF series has an entry for both rows while the
filter keeps only one. -/
theorem C1_counterexample :
    ghi_m_col tableWithZeroGHI ≠ (filtered_data tableWithZeroGHI).map (fun r => r.GHI) ∧
    (0 : ℚ) ∈ ghi_m_col tableWithZeroGHI ∧
    rowZeroGHI ∈ tableWithZeroGHI ∧
    passesAll rowZeroGHI = false ∧
    rowZeroGHI.GHI = 0 ∧
    (cf_column tableWithZeroGHI).length = 2 ∧
    (filtered_data tableWithZeroGHI).length = 1 := by
  refine ⟨?_, ?_, ?_, passesAll_rowZeroGHI, ?_, ?_, ?_⟩
  · rw [filtered_tableWithZeroGHI]
    norm_num [ghi_m_col, tableWithZeroGHI, rowGood, rowZeroGHI]
  · norm_num [ghi_m_col, tableWithZeroGHI, rowGood, rowZeroGHI]
  · simp [tableWithZeroGHI]
  · norm_num [rowZeroGHI]
  · rw [cf_column_eq]
    simp [tableWithZeroGHI]
  · rw [filtered_tableWithZeroGHI]
    rfl

/-- C1, amended. The line-68 filter does precede the derived-column
assignments, and pandas index alignment discards the values computed for
removed rows: the CF values kept in the frame are exactly the surviving rows
paired with calculate_cf of their own columns, and every surviving row has a
nonzero GHI and a nonzero clear-sky DNI, so the values that are kept never
involve a division by zero — even though the elementwise computation itself
also ran over the removed rows. -/
theorem C1_filter_alignment (d : List HIRow) :
    cf_assigned d = (filtered_data d).map (fun r =>
      (r, calculate_cf (r.DHI : ℝ) (r.GHI : ℝ) (r.DNI : ℝ) (r.clearskyDNI : ℝ))) ∧
    ∀ r ∈ filtered_data d, passesAll r = true ∧ r.GHI ≠ 0 ∧ r.clearskyDNI ≠ 0 := by
  refine ⟨cf_assigned_eq d, ?_⟩
  intro r hr
  have hp : passesAll r = true := (List.mem_filter.mp hr).2
  exact ⟨hp, passes_nonzero_denominators r hp⟩

/-- C1, witness for the amended theorem on the concrete two-row table. -/
theorem C1_filter_alignment_witness :
    cf_assigned tableWithZeroGHI = [(rowGood,
      calculate_cf (rowGood.DHI : ℝ) (rowGood.GHI : ℝ) (rowGood.DNI : ℝ)
        (rowGood.clearskyDNI : ℝ))] ∧
    (passesAll rowGood = true ∧ rowGood.GHI ≠ 0 ∧ rowGood.clearskyDNI ≠ 0) := by
  have h := C1_filter_alignment tableWithZeroGHI
  constructor
  · rw [h.1, filtered_tableWithZeroGHI]
    rfl
  · exact h.2 rowGood (by rw [filtered_tableWithZeroGHI]; simp)

/-! ## Claims C2 and C9 -/

/-- Looking up station A in exFile yields the complete table. -/
theorem readKey_A : readKey exFile "A" = some stationFull := rfl

/-- Looking up station B in exFile yields the schema-broken table. -/
theorem readKey_B : readKey exFile "B" = some stationNoGhiM := rfl

/-- Station Z is absent from exFile. -/
theorem readKey_Z : readKey exFile "Z" = none := rfl

/-- Station A of exFile processes to procA. -/
theorem processStation_A : processStation exFile "A" = Except.ok procA := by
  simp only [processStation, readKey_A, stationFull, except_bind_ok,
    except_bind_error, getCol]
  norm_num [calculate_cloud_fraction, compute_emissivity, procA,
    Except.ok.injEq, ProcStation.mk.injEq, min_def, max_def, sigma_q,
    List.zipWith]

/-- Station B of exFile hits the missing ghi_m column: the body raises
KeyError for the column, exactly as it would for a missing station key. -/
theorem processStation_B : processStation exFile "B" = Except.error "ghi_m" := by
  simp [processStation, readKey_B, stationNoGhiM, except_bind_ok,
    except_bind_error, getCol]

/-- C2, counterexample. The claim states that a schema error (an expected
column absent from a station table that did load) is fatal and surfaced to
the caller. In the code the column access raises KeyError inside the same
try/except that guards the key lookup, so the station is skipped exactly
like a missing key: on exFile, station B raises the schema KeyError ghi_m,
yet read_surfrad_h5 returns ok with the data of station A alone. -/
theorem C2_counterexample :
    processStation exFile "B" = Except.error "ghi_m" ∧
    read_surfrad_h5 exFile ["A", "B"] = Except.ok [procA] := by
  refine ⟨processStation_B, ?_⟩
  simp [read_surfrad_h5, List.filterMap_cons, processStation_A, processStation_B,
    Except.toOption]

/-- C2, amended. Both failure shapes raise KeyError inside the per-station
try block: a missing station key raises KeyError with the station name, and
a missing ghi_m column raises KeyError with the column name. The except
clause treats them identically — the station is skipped with a warning and
processing continues — and whenever at least one station processed, the
combined result is ok and holds exactly the successfully processed
stations in order. -/
theorem C2_skip_behavior (f : H5File) (sts : List String) :
    (∀ st, readKey f st = none → processStation f st = Except.error st) ∧
    (∀ st df, readKey f st = some df → df.ghi_m = none →
        processStation f st = Except.error "ghi_m") ∧
    (sts.filterMap (fun s => (processStation f s).toOption) ≠ [] →
        read_surfrad_h5 f sts =
          Except.ok (sts.filterMap (fun s => (processStation f s).toOption))) := by
  refine ⟨?_, ?_, ?_⟩
  · intro st h
    simp [processStation, h, except_bind_error]
  · intro st df h hg
    simp [processStation, h, hg, getCol, except_bind_ok, except_bind_error]
  · intro hne
    unfold read_surfrad_h5
    cases hc : sts.filterMap (fun s => (processStation f s).toOption) with
    | nil => exact absurd hc hne
    | cons p ps => simp [hc]

/-- C2, witness for the amended theorem: a station key absent from exFile,
the schema-broken station B, and the two-station run that keeps only A. -/
theorem C2_skip_behavior_witness :
    processStation exFile "Z" = Except.error "Z" ∧
    processStation exFile "B" = Except.error "ghi_m" ∧
    read_surfrad_h5 exFile ["A", "B"] =
      Except.ok ((["A", "B"]).filterMap
        (fun s => (processStation exFile s).toOption)) := by
  have h := C2_skip_behavior exFile ["A", "B"]
  refine ⟨h.1 "Z" ?_, h.2.1 "B" stationNoGhiM ?_ ?_, h.2.2 ?_⟩
  · simp [readKey, exFile, List.find?]
  · simp [readKey, exFile, List.find?]
  · rfl
  · simp [List.filterMap_cons, processStation_A, Except.toOption]

/-- C9. When every requested station key is absent from the source, every
per-station body raises KeyError and is skipped, the list of loaded
partitions is empty, and the final pd.concat raises ValueError instead of
returning an empty combined table. -/
theorem C9_all_missing (f : H5File) (sts : List String)
    (h : ∀ st ∈ sts, readKey f st = none) :
    read_surfrad_h5 f sts = Except.error "No objects to concatenate" := by
  have hfm : sts.filterMap (fun s => (processStation f s).toOption) = [] := by
    induction sts with
    | nil => rfl
    | cons a t ih =>
      have ha : processStation f a = Except.error a := by
        simp [processStation, h a (List.mem_cons_self a t), except_bind_error]
      rw [List.filterMap_cons, ha]
      exact ih (fun st hst => h st (List.mem_cons_of_mem a hst))
  unfold read_surfrad_h5
  rw [hfm]

/-- C9, witness: an empty source with one requested station. -/
theorem C9_all_missing_witness :
    read_surfrad_h5 ([] : H5File) ["BON"] =
      Except.error "No objects to concatenate" := by
  exact C9_all_missing ([] : H5File) ["BON"]
    (by intro st hst; simp [readKey])

/-! ## Claims C3 and C10 -/

/-- C3. For every air temperature, vapor pressure and cloud fraction, the
dispatcher raises the unknown-model ValueError exactly when the identifier
is none of the six enumerated names, and for each enumerated name it
returns the matching correction formula applied to the Brutsaert clear-sky
baseline, with the air temperature passed on only for konzelmann and
crawford_duchon. -/
theorem C3_dispatch_exhaustive (Ta ea c : ℝ) (model : String) :
    (compute_cloudy_LW Ta ea c model = none ↔ model ∉ enumerated_models) ∧
    compute_cloudy_LW Ta ea c "maykut_church" =
      some (maykut_church (brutsaert_clear_sky Ta ea) c) ∧
    compute_cloudy_LW Ta ea c "jacobs" =
      some (jacobs (brutsaert_clear_sky Ta ea) c) ∧
    compute_cloudy_LW Ta ea c "suguita_brutsaert" =
      some (suguita_brutsaert (brutsaert_clear_sky Ta ea) c) ∧
    compute_cloudy_LW Ta ea c "konzelmann" =
      some (konzelmann (brutsaert_clear_sky Ta ea) c Ta) ∧
    compute_cloudy_LW Ta ea c "crawford_duchon" =
      some (crawford_duchon (brutsaert_clear_sky Ta ea) c Ta) ∧
    compute_cloudy_LW Ta ea c "lhomme" =
      some (lhomme (brutsaert_clear_sky Ta ea) c) := by
  refine ⟨?_, by simp [compute_cloudy_LW], by simp [compute_cloudy_LW],
    by simp [compute_cloudy_LW], by simp [compute_cloudy_LW],
    by simp [compute_cloudy_LW], by simp [compute_cloudy_LW]⟩
  unfold compute_cloudy_LW enumerated_models
  split_ifs with h1 h2 h3 h4 h5 h6 <;> simp_all

/-- C10. A call of compute_cloudy_LW that omits the model argument runs
with the declared default crawford_duchon: it returns the crawford_duchon
correction of the Brutsaert baseline, and the default is one of the six
enumerated names. -/
theorem C10_default_model (Ta ea c : ℝ) :
    compute_cloudy_LW_defaulted Ta ea c =
      compute_cloudy_LW Ta ea c "crawford_duchon" ∧
    compute_cloudy_LW_defaulted Ta ea c =
      some (crawford_duchon (brutsaert_clear_sky Ta ea) c Ta) ∧
    compute_cloudy_LW_default_model ∈ enumerated_models := by
  refine ⟨rfl, ?_, by simp [compute_cloudy_LW_default_model, enumerated_models]⟩
  simp [compute_cloudy_LW_defaulted, compute_cloudy_LW_default_model,
    compute_cloudy_LW]

/-! ## Claim C4 -/

/-- C4. The single-station filter retains exactly the rows on which the
conjunction of the five predicates holds, and on the five-row scenario
table (GHI [500, 0, 500, 500, 500], DHI [100, 50, 100, 100, 100],
temp [20, 20, 20, 95, 20], other filter columns passing) exactly the second
and fourth rows are dropped, leaving three rows. -/
theorem C4_row_filter :
    (∀ (t : List HIRow) (r : HIRow), r ∈ filtered_data t ↔ r ∈ t ∧
      (r.solarZenithAngle < 72.5 ∧ (r.GHI > 0 ∧ r.DHI > 0) ∧
       (r.DNI / r.clearskyDNI > 0 ∧ r.DNI / r.clearskyDNI ≤ 1.5) ∧
       (r.temp ≤ 90 ∧ r.temp ≥ -80) ∧ r.dlw > 0)) ∧
    filtered_data scenarioTable = [rowGood, rowGood, rowGood] ∧
    (filtered_data scenarioTable).length = 3 ∧
    passesAll rowZeroGHI = false ∧ passesAll rowHotTemp = false := by
  have hsc : filtered_data scenarioTable = [rowGood, rowGood, rowGood] := by
    simp [filtered_data, scenarioTable, List.filter_cons, passesAll_rowGood,
      passesAll_rowZeroGHI, passesAll_rowHotTemp]
  refine ⟨?_, hsc, by rw [hsc]; rfl, passesAll_rowZeroGHI, passesAll_rowHotTemp⟩
  intro t r
  rw [filtered_data, List.mem_filter, passesAll_iff]

/-! ## Claim C5 -/

/-- C5. For equal-length series with nonzero mean of the actual series, the
single-station calculate_errors returns exactly the four scalars
bias, rmse, relative bias percent and relative rmse percent, and one
iteration of the validation loop returns exactly the same four formulas
computed on the predicted-emissivity and measured-emissivity columns
whenever the vectorised dispatch succeeded. -/
theorem C5_error_metrics (actual predicted : List ℝ) (data : ValidationData)
    (model : String) (predicted_LW : List ℝ)
    (hlen : predicted.length = actual.length)
    (hmean : listMean actual ≠ 0)
    (hok : allSome (zipWith3 (fun t e c => compute_cloudy_LW t e c model)
        data.Ta data.ea data.cloud_Fraction) = some predicted_LW) :
    calculate_errors actual predicted =
      (listMean (List.zipWith (fun p a => p - a) predicted actual),
       Real.sqrt (listMean ((List.zipWith (fun p a => p - a) predicted actual).map
         (fun e => e ^ (2 : ℕ)))),
       listMean (List.zipWith (fun p a => p - a) predicted actual) /
         listMean actual * 100,
       Real.sqrt (listMean ((List.zipWith (fun p a => p - a) predicted actual).map
         (fun e => e ^ (2 : ℕ)))) / listMean actual * 100) ∧
    validate_one data model = some
      (listMean (List.zipWith (fun p m => p - m)
         (List.zipWith (fun l t => l / (5.67e-8 * t ^ (4 : ℕ))) predicted_LW data.Ta)
         data.emissivity_measured),
       Real.sqrt (listMean ((List.zipWith (fun p m => p - m)
         (List.zipWith (fun l t => l / (5.67e-8 * t ^ (4 : ℕ))) predicted_LW data.Ta)
         data.emissivity_measured).map (fun e => e ^ (2 : ℕ)))),
       listMean (List.zipWith (fun p m => p - m)
         (List.zipWith (fun l t => l / (5.67e-8 * t ^ (4 : ℕ))) predicted_LW data.Ta)
         data.emissivity_measured) / listMean data.emissivity_measured * 100,
       Real.sqrt (listMean ((List.zipWith (fun p m => p - m)
         (List.zipWith (fun l t => l / (5.67e-8 * t ^ (4 : ℕ))) predicted_LW data.Ta)
         data.emissivity_measured).map (fun e => e ^ (2 : ℕ)))) /
         listMean data.emissivity_measured * 100) := by
  constructor
  · rfl
  · simp only [validate_one, hok]

/-- C5, witness: the relative-error scenario series of the spec together
with a one-row validation frame dispatched to jacobs. -/
theorem C5_error_metrics_witness :
    calculate_errors actualEx predictedEx =
      (listMean (List.zipWith (fun p a => p - a) predictedEx actualEx),
       Real.sqrt (listMean ((List.zipWith (fun p a => p - a) predictedEx actualEx).map
         (fun e => e ^ (2 : ℕ)))),
       listMean (List.zipWith (fun p a => p - a) predictedEx actualEx) /
         listMean actualEx * 100,
       Real.sqrt (listMean ((List.zipWith (fun p a => p - a) predictedEx actualEx).map
         (fun e => e ^ (2 : ℕ)))) / listMean actualEx * 100) ∧
    validate_one dataEx "jacobs" ≠ none := by
  have h := C5_error_metrics actualEx predictedEx dataEx "jacobs"
      [jacobs (brutsaert_clear_sky 300 10) 0]
      (by simp [actualEx, predictedEx])
      (by norm_num [listMean, actualEx])
      (by simp [dataEx, zipWith3, allSome, compute_cloudy_LW])
  exact ⟨h.1, by rw [h.2]; simp⟩

/-! ## Claim C6 -/

/-- C6. The multi-station per-row cloud fraction: with a provided clr_pct
column the result is 1 - clr_pct elementwise (no clipping); without it the
result is 1 - ghi_m / ghi_c elementwise, clipped to [0, 1]. -/
theorem C6_cloud_fraction (ghi_m ghi_c ps : List ℚ) :
    calculate_cloud_fraction ghi_m ghi_c (some ps) = ps.map (fun p => 1 - p) ∧
    calculate_cloud_fraction ghi_m ghi_c none =
      List.zipWith (fun m c => min 1 (max 0 (1 - m / c))) ghi_m ghi_c := by
  refine ⟨rfl, ?_⟩
  show (List.zipWith (fun m c => 1 - m / c) ghi_m ghi_c).map
      (fun x => min 1 (max 0 x)) =
    List.zipWith (fun m c => min 1 (max 0 (1 - m / c))) ghi_m ghi_c
  induction ghi_m generalizing ghi_c with
  | nil => rfl
  | cons m ms ih =>
    cases ghi_c with
    | nil => rfl
    | cons c cs => simp [ih cs]

/-! ## Claim C7 -/

/-- C7. The clear-sky emissivity is exactly the Magnus-type formula with
coefficients 0.6, 1.652, 0.15, reference pressure 1013.25 hPa and scale
height 8500 m; and the output is not clamped to [0, 1] — at temp 20,
rh 0 and altitude -20000 the value exceeds 1. -/
theorem C7_clear_sky_emissivity (temp rh altitude : ℝ) :
    calculate_clear_sky_emissivity temp rh altitude =
      0.6 + 1.652 * Real.sqrt ((6.112 *
        Real.exp (17.625 * temp / (temp - 30.11 + 273.15)) * rh / 100) / 1013.25) +
      0.15 * (Real.exp (-altitude / 8500) - 1) ∧
    1 < calculate_clear_sky_emissivity 20 0 (-20000) := by
  constructor
  · rfl
  · have h1 : (37 : ℝ)/17 ≤ Real.exp (20/17) := by
      have := Real.add_one_le_exp ((20 : ℝ)/17)
      linarith
    have h2 : ((37 : ℝ)/17) * (37/17) ≤ Real.exp (20/17) * Real.exp (20/17) :=
      mul_le_mul h1 h1 (by norm_num) (le_trans (by norm_num) h1)
    have h3 : Real.exp (20/17) * Real.exp (20/17) = Real.exp (40/17) := by
      rw [← Real.exp_add]
      norm_num
    have h4 : (1369 : ℝ)/289 ≤ Real.exp (40/17) := by
      have h5 : ((37 : ℝ)/17) * (37/17) = 1369/289 := by norm_num
      linarith [h2, h3]
    simp only [calculate_clear_sky_emissivity]
    have hz : (6.112 * Real.exp (17.625 * 20 / (20 - 30.11 + 273.15)) * (0 : ℝ) / 100)
        / 1013.25 = 0 := by ring
    rw [hz, Real.sqrt_zero]
    have halt : -(-20000 : ℝ) / scaleH = 40/17 := by norm_num [scaleH]
    rw [halt]
    linarith [h4]

/-! ## Claim C8 -/

/-- C8. At zero cloud fraction the jacobs correction returns exactly the
clear-sky flux, while the lhomme correction returns 1.03 times the
clear-sky flux, which differs from the clear-sky flux whenever that flux is
nonzero: the asymmetry is present in the code. -/
theorem C8_zero_cloud_fraction (LW_clear : ℝ) (h : LW_clear ≠ 0) :
    jacobs LW_clear 0 = LW_clear ∧
    lhomme LW_clear 0 = 1.03 * LW_clear ∧
    lhomme LW_clear 0 ≠ LW_clear := by
  refine ⟨by simp [jacobs], by rw [lhomme]; ring, ?_⟩
  intro heq
  apply h
  have h1 : LW_clear * 1.03 = LW_clear := by
    have h2 := heq
    rw [lhomme] at h2
    nlinarith [h2]
  linarith

/-- C8, witness at the clear-sky flux 100. -/
theorem C8_zero_cloud_fraction_witness :
    jacobs 100 0 = 100 ∧ lhomme 100 0 = 1.03 * 100 ∧ lhomme 100 0 ≠ 100 :=
  C8_zero_cloud_fraction 100 (by norm_num)

end Longwave
